import Mathlib

/-!
Verification development for the MongoDB → Meilisearch synchronizer in
`src/sync.js`.  The JavaScript value universe, the configured `transform`,
the paginated bulk loader of `syncCollection`, the change-stream handler and
the stream-error restart logic are shallowly embedded as executable Lean
definitions, and the specification's claims are settled against them.
-/

/-- Model of a JavaScript value as it appears inside an array field of a
source record (one nesting level: the transform only inspects arrays of
scalars/references, so array elements are modelled as atoms). -/
inductive JsAtom where
  | aundef
  | anull
  | abool (b : Bool)
  | anum (n : Int)
  | anan
  | astr (s : String)
  | aobjId (s : String)
  | adate (t : Int)
deriving DecidableEq

/-- Model of a JavaScript value stored in a field of a source record:
`vundef` stands for an absent field, `vobjId` for a BSON ObjectId (an object
whose `toString()` yields its hex string), `vdate` for a `Date` object with
millisecond timestamp `t`, `vnan` for the number `NaN`. -/
inductive JsVal where
  | vundef
  | vnull
  | vbool (b : Bool)
  | vnum (n : Int)
  | vnan
  | vstr (s : String)
  | vobjId (s : String)
  | vdate (t : Int)
  | varr (elems : List JsAtom)
deriving DecidableEq

/-- JavaScript truthiness: `undefined`, `null`, `false`, `0`, `NaN` and the
empty string are falsy; every object (ObjectId, Date, array) is truthy. -/
def jsTruthy : JsVal → Bool
  | .vundef => false
  | .vnull => false
  | .vbool b => b
  | .vnum n => n != 0
  | .vnan => false
  | .vstr s => !s.isEmpty
  | .vobjId _ => true
  | .vdate _ => true
  | .varr _ => true

/-- JavaScript `typeof` on an array element (`typeof null` is `"object"`). -/
def jsTypeofAtom : JsAtom → String
  | .aundef => "undefined"
  | .anull => "object"
  | .abool _ => "boolean"
  | .anum _ => "number"
  | .anan => "number"
  | .astr _ => "string"
  | .aobjId _ => "object"
  | .adate _ => "object"

/-- Host string conversion of an array element.  ObjectIds stringify to their
hex string; the remaining cases model `String(x)` for primitives. -/
def jsAtomToStr : JsAtom → String
  | .aundef => "undefined"
  | .anull => "null"
  | .abool b => if b then "true" else "false"
  | .anum n => toString n
  | .anan => "NaN"
  | .astr s => s
  | .aobjId s => s
  | .adate t => "Date:" ++ toString t

/-- `x.toString()` on an array element: throws a TypeError (`none`) when the
receiver is `null` or `undefined`. -/
def jsAtomToString : JsAtom → Option String
  | .aundef => none
  | .anull => none
  | a => some (jsAtomToStr a)

/-- Host string conversion of a field value (arrays join their elements with
a comma, as `Array.prototype.toString` does). -/
def jsToStr : JsVal → String
  | .vundef => "undefined"
  | .vnull => "null"
  | .vbool b => if b then "true" else "false"
  | .vnum n => toString n
  | .vnan => "NaN"
  | .vstr s => s
  | .vobjId s => s
  | .vdate t => "Date:" ++ toString t
  | .varr xs => String.intercalate "," (xs.map jsAtomToStr)

/-- `v.toString()` on a field value: throws a TypeError (`none`) when the
receiver is `null` or `undefined`. -/
def jsToString : JsVal → Option String
  | .vundef => none
  | .vnull => none
  | v => some (jsToStr v)

/-- JavaScript `a || b`. -/
def jsOr (a b : JsVal) : JsVal := if jsTruthy a then a else b

/-- Model of the host's `new Date(v).getTime()` for a truthy `v`: numbers and
`Date`s give their millisecond value, `true` gives 1, strings parse through
the host date parser (modelled abstractly: decimal strings parse to that
value, any other string is an invalid date and yields `NaN`), and other
objects yield `NaN`. -/
def jsNewDateGetTime : JsVal → JsVal
  | .vnum n => .vnum n
  | .vdate t => .vnum t
  | .vbool b => .vnum (if b then 1 else 0)
  | .vstr s =>
    match s.toInt? with
    | some n => .vnum n
    | none => .vnan
  | _ => .vnan

/-- Whether a value is of JavaScript number type (`NaN` included). -/
def JsVal.isNumeric : JsVal → Bool
  | .vnum _ => true
  | .vnan => true
  | _ => false

/-- One element of the `Category`/`Region` mapping in `transform`
(src/sync.js lines 37–42): `c => (typeof c === 'object' ? c.toString() : c)`.
Throws (`none`) exactly when the element is `null` (`typeof null` is
`"object"` and `null.toString()` raises a TypeError). -/
def jsCoerceElem (a : JsAtom) : Option JsAtom :=
  if jsTypeofAtom a = "object" then (jsAtomToString a).map .astr else some a

/-- `xs.map(c => ...)` with exception propagation. -/
def coerceElems : List JsAtom → Option (List JsAtom)
  | [] => some []
  | a :: rest =>
    match jsCoerceElem a with
    | none => none
    | some b => (coerceElems rest).map (b :: ·)

/-- `Array.isArray(v) ? v.map(...) : []` (src/sync.js lines 37–42). -/
def jsCoerceArray (v : JsVal) : Option (List JsAtom) :=
  match v with
  | .varr xs => coerceElems xs
  | _ => some []

/-- A source record as read from the `prices` collection.  Each field holds
a JavaScript value; `.vundef` models an absent field.  `_id` is the MongoDB
document identifier. -/
structure SourceRecord where
  _id : JsVal := .vundef
  Code : JsVal := .vundef
  Name : JsVal := .vundef
  Price : JsVal := .vundef
  Balance : JsVal := .vundef
  Measure : JsVal := .vundef
  User : JsVal := .vundef
  SpecOffer : JsVal := .vundef
  PriceId : JsVal := .vundef
  Category : JsVal := .vundef
  Region : JsVal := .vundef
  Date : JsVal := .vundef
deriving DecidableEq

/-- The Meilisearch document produced by the configured transform
(src/sync.js lines 23–45). -/
structure SearchDoc where
  id : String
  code : JsVal
  name : JsVal
  price : JsVal
  balance : JsVal
  measure : JsVal
  userId : JsVal
  specOfferId : JsVal
  priceId : JsVal
  category : List JsAtom
  region : List JsAtom
  date : JsVal
deriving DecidableEq

/-- The configured transform of src/sync.js lines 23–45.  `none` models a
thrown exception: `doc._id.toString()` raises when `_id` is absent or null,
and the `Category`/`Region` element coercion raises on a `null` element.
All other field accesses are guarded (`||` defaults, ternaries,
`Array.isArray`). -/
def transform (doc : SourceRecord) : Option SearchDoc :=
  match jsToString doc._id with
  | none => none
  | some idStr =>
    match jsCoerceArray doc.Category with
    | none => none
    | some category =>
      match jsCoerceArray doc.Region with
      | none => none
      | some region =>
        some {
          id := idStr
          code := jsOr doc.Code .vnull
          name := jsOr doc.Name .vnull
          price := jsOr doc.Price (.vnum 0)
          balance := jsOr doc.Balance (.vnum 0)
          measure := jsOr doc.Measure .vnull
          userId := if jsTruthy doc.User then .vstr (jsToStr doc.User) else .vnull
          specOfferId := if jsTruthy doc.SpecOffer then .vstr (jsToStr doc.SpecOffer) else .vnull
          priceId := if jsTruthy doc.PriceId then .vstr (jsToStr doc.PriceId) else .vnull
          category := category
          region := region
          date := if jsTruthy doc.Date then jsNewDateGetTime doc.Date else .vnull }

/-- `.filter(Boolean)` applied to transform outputs (src/sync.js line 120):
a JavaScript object literal is always truthy. -/
def searchDocTruthy (_d : SearchDoc) : Bool := true

/-- `const batchSize = 5000` (src/sync.js line 111). -/
def batchSize : Nat := 5000

/-- Observable outcome of the bulk-load loop of `syncCollection`
(src/sync.js lines 110–129): the offsets at which `find().skip().limit()`
page reads were issued, the batches passed to `addDocuments`, the running
`total`, and whether the loop aborted on a thrown exception. -/
structure BulkOut where
  pageSkips : List Nat
  batches : List (List SearchDoc)
  total : Nat
  threw : Bool
deriving DecidableEq

/-- `docs.map(config.transform)` (src/sync.js line 119) with exception
propagation: a throw inside the map aborts the whole pass. -/
def mapTransform : List SourceRecord → Option (List SearchDoc)
  | [] => some []
  | d :: rest =>
    match transform d with
    | none => none
    | some t => (mapTransform rest).map (t :: ·)

/-- The `while (true)` bulk-load loop of `syncCollection` (src/sync.js lines
114–129), reading pages of `batchSize` records at offset `skip`, stopping at
the first empty page.  The loop in the source is unbounded; `fuel` is a
structural-recursion bound and `syncBulk` supplies enough of it for the loop
to finish. -/
def bulkLoop (records : List SourceRecord) : Nat → Nat → BulkOut
  | 0, _ => { pageSkips := [], batches := [], total := 0, threw := true }
  | fuel + 1, skip =>
    let docs := (records.drop skip).take batchSize
    if docs.isEmpty then
      { pageSkips := [skip], batches := [], total := 0, threw := false }
    else
      match mapTransform docs with
      | none => { pageSkips := [skip], batches := [], total := 0, threw := true }
      | some mapped =>
        let documents := mapped.filter searchDocTruthy
        let rest := bulkLoop records fuel (skip + batchSize)
        { pageSkips := skip :: rest.pageSkips
          batches := (if documents.length > 0 then [documents] else []) ++ rest.batches
          total := documents.length + rest.total
          threw := rest.threw }

/-- The full initial synchronization pass over a source collection
(src/sync.js lines 110–131), started at offset 0. -/
def syncBulk (records : List SourceRecord) : BulkOut :=
  bulkLoop records (records.length / batchSize + 2) 0

/-- Meilisearch `addDocuments` semantics on one document: an upsert keyed by
the primary key `id` — replace the document with the same id if present,
append otherwise. -/
def upsertDoc (idx : List SearchDoc) (d : SearchDoc) : List SearchDoc :=
  if idx.any (fun e => e.id == d.id) then
    idx.map (fun e => if e.id == d.id then d else e)
  else idx ++ [d]

/-- Index contents after applying a sequence of id-keyed upserts to an
initially empty index. -/
def indexedDocs (l : List SearchDoc) : List SearchDoc := l.foldl upsertDoc []

/-- The four operation types the change-stream pipeline passes through
(src/sync.js lines 135–137). -/
inductive OpType where
  | insert
  | update
  | replace
  | delete
deriving DecidableEq

/-- A change-stream event (src/sync.js lines 141–168): the operation type,
`documentKey._id`, and the looked-up `fullDocument` (`none` when absent). -/
structure ChangeEvent where
  operationType : OpType
  documentKeyId : JsVal
  fullDocument : Option SourceRecord
deriving DecidableEq

/-- An index write issued by the change handler. -/
inductive IndexOp where
  | addDocs (d : SearchDoc)
  | updateDocs (d : SearchDoc)
  | deleteDoc (id : String)
deriving DecidableEq

/-- The primary key a write is keyed by: `addDocuments`/`updateDocuments`
use the document's `id` field, `deleteDocument` takes the id directly. -/
def IndexOp.key : IndexOp → String
  | .addDocs d => d.id
  | .updateDocs d => d.id
  | .deleteDoc i => i

/-- `addDocuments` and `updateDocuments` are both id-keyed upserts;
`deleteDocument` is not. -/
def IndexOp.isUpsert : IndexOp → Bool
  | .addDocs _ => true
  | .updateDocs _ => true
  | .deleteDoc _ => false

/-- Observable outcome of one run of the `'change'` callback (src/sync.js
lines 141–172): the index writes attempted, whether the `catch` block logged
an error, whether the handler scheduled a pipeline restart (it never does),
and whether it halted the listener (it never does — the `catch` swallows). -/
structure HandlerResult where
  ops : List IndexOp
  errorLogged : Bool
  scheduledRestartDelay : Option Nat
  listenerHalted : Bool
deriving DecidableEq

/-- Attempt a single awaited index write inside the `try` block: the write
is issued; if it rejects (`w op = false`) control jumps to the `catch`,
which only logs. -/
def attemptWrite (w : IndexOp → Bool) (op : IndexOp) : HandlerResult :=
  { ops := [op], errorLogged := !w op, scheduledRestartDelay := none, listenerHalted := false }

/-- Handler outcome when the event produces no index write and no error. -/
def emptyOutcome : HandlerResult :=
  { ops := [], errorLogged := false, scheduledRestartDelay := none, listenerHalted := false }

/-- Handler outcome when the `try` block throws before any write is issued
(`documentKey._id.toString()` or `config.transform` raising). -/
def caughtOutcome : HandlerResult :=
  { ops := [], errorLogged := true, scheduledRestartDelay := none, listenerHalted := false }

/-- The `'change'` callback of src/sync.js lines 141–172.  `w` tells whether
a given index write succeeds; a failing write throws into the `catch` block,
which logs and drops the event. -/
def handleChange (w : IndexOp → Bool) (ev : ChangeEvent) : HandlerResult :=
  match jsToString ev.documentKeyId with
  | none => caughtOutcome
  | some docId =>
    match ev.operationType with
    | .insert | .replace =>
      match ev.fullDocument with
      | some d =>
        match transform d with
        | none => caughtOutcome
        | some t => if searchDocTruthy t then attemptWrite w (.addDocs t) else emptyOutcome
      | none => emptyOutcome
    | .update =>
      match ev.fullDocument with
      | some d =>
        match transform d with
        | none => caughtOutcome
        | some t => if searchDocTruthy t then attemptWrite w (.updateDocs t) else emptyOutcome
      | none => emptyOutcome
    | .delete => attemptWrite w (.deleteDoc docId)

/-- The listener processes every event of the stream through the `'change'`
callback; a swallowed per-event failure does not stop later events from
being handled. -/
def processEvents (w : IndexOp → Bool) (evs : List ChangeEvent) : List HandlerResult :=
  evs.map (handleChange w)

/-- What a scheduled restart runs: the whole `syncCollection` (bulk load
followed by listener attachment), or — the alternative the source does NOT
take — a mere reattachment of the listener. -/
inductive RestartTask where
  | fullPipeline
  | attachOnly
deriving DecidableEq

/-- The actions available to the `'error'` callback of the change stream. -/
inductive ListenerAction where
  | logError
  | scheduleRestart (delayMs : Nat) (task : RestartTask)
  | closeStream
deriving DecidableEq

/-- The `'error'` callback of src/sync.js lines 174–177: it logs and
schedules `syncCollection(mongoClient, config)` — the full pipeline — after
10000 ms.  Notably it contains no `changeStream.close()`. -/
def onStreamErrorActions : List ListenerAction :=
  [.logError, .scheduleRestart 10000 .fullPipeline]

/-- Externally visible steps of one `syncCollection` run. -/
inductive PipelineOp where
  | updateSettings
  | pageRead (skip lim : Nat)
  | addBatch (n : Nat)
  | attachListener
deriving DecidableEq

/-- Trace of one `syncCollection` run (src/sync.js lines 88–178): settings
update, then the bulk pass (its page reads and `addDocuments` batches — the
source interleaves reads and writes; the trace lists the reads then the
writes, which the claims do not distinguish), then — unless the bulk pass
threw — the change-stream attachment (line 139). -/
def syncCollectionOps (records : List SourceRecord) : List PipelineOp :=
  let out := syncBulk records
  PipelineOp.updateSettings ::
    (out.pageSkips.map fun s => PipelineOp.pageRead s batchSize) ++
    (out.batches.map fun b => PipelineOp.addBatch b.length) ++
    (if out.threw then [] else [PipelineOp.attachListener])

/-- What each restart task executes when it fires. -/
def runRestartTask : RestartTask → List SourceRecord → List PipelineOp
  | .fullPipeline, records => syncCollectionOps records
  | .attachOnly, _ => [PipelineOp.attachListener]

/-- Supervisor-level events for one collection: a `syncCollection` run
reaching `collection.watch(...)` (registering a listener), and the firing of
a stream-error handler. -/
inductive SupEvent where
  | attachRun
  | errorFires
deriving DecidableEq

/-- Effect of a supervisor event on the number of active (registered and
never closed) change-stream listeners for the collection.  A run registers
one more listener; the error handler closes one only if its actions contain
`closeStream` — which they do not. -/
def supStep (n : Nat) : SupEvent → Nat
  | .attachRun => n + 1
  | .errorFires => if ListenerAction.closeStream ∈ onStreamErrorActions then n - 1 else n

/-- Number of active listeners after a sequence of supervisor events. -/
def activeListeners (evs : List SupEvent) : Nat := evs.foldl supStep 0

/-- `.filter(Boolean)` on transform outputs keeps every document: object
literals are truthy. -/
theorem filter_searchDocTruthy (l : List SearchDoc) : l.filter searchDocTruthy = l := by
  induction l with
  | nil => rfl
  | cons a l ih => simp [List.filter, searchDocTruthy, ih]

/-- When no record of the page makes the transform throw, the mapped page is
exactly the element-wise transform (and no record is lost). -/
theorem mapTransform_spec (l : List SourceRecord) (h : ∀ r ∈ l, (transform r).isSome) :
    mapTransform l = some (l.filterMap transform) ∧
      (l.filterMap transform).length = l.length := by
  induction l with
  | nil => simp [mapTransform]
  | cons d rest ih =>
    have hd : (transform d).isSome := h d (by simp)
    obtain ⟨t, ht⟩ := Option.isSome_iff_exists.mp hd
    have hrest := ih (fun r hr => h r (by simp [hr]))
    simp [mapTransform, ht, List.filterMap_cons, hrest.1, hrest.2]

/-- Characterization of the bulk-load loop from offset `skip`, given enough
fuel and no throwing record: it does not throw, issues page reads at the
offsets `skip, skip + B, skip + 2B, …` — one read per started page plus the
final empty read, `⌈(length − skip)/B⌉ + 1` in all — and the batches sent to
the index are exactly the transforms of the records from offset `skip` on. -/
theorem bulkLoop_spec (records : List SourceRecord)
    (hall : ∀ r ∈ records, (transform r).isSome) :
    ∀ fuel skip,
      (records.length - skip + (batchSize - 1)) / batchSize + 1 ≤ fuel →
      (bulkLoop records fuel skip).threw = false ∧
      (bulkLoop records fuel skip).pageSkips =
        (List.range ((records.length - skip + (batchSize - 1)) / batchSize + 1)).map
          (fun i => skip + batchSize * i) ∧
      (bulkLoop records fuel skip).batches.flatten =
        (records.drop skip).filterMap transform ∧
      (bulkLoop records fuel skip).total = records.length - skip := by
  intro fuel
  induction fuel with
  | zero => intro skip h; exact absurd h (Nat.not_succ_le_zero _)
  | succ fuel ih =>
    intro skip hf
    cases hemp : ((records.drop skip).take batchSize).isEmpty with
    | true =>
      have hnil : (records.drop skip).take batchSize = [] := List.isEmpty_iff.mp hemp
      have hdnil : records.drop skip = [] := by
        rcases List.take_eq_nil_iff.mp hnil with h | h
        · exact absurd h (by simp [batchSize])
        · exact h
      have hlen : records.length ≤ skip := List.drop_eq_nil_iff.mp hdnil
      have hk : (records.length - skip + (batchSize - 1)) / batchSize + 1 = 1 := by
        simp only [batchSize]; omega
      refine ⟨?_, ?_, ?_, ?_⟩
      · simp [bulkLoop, hemp]
      · have hr1 : List.range 1 = [0] := rfl
        simp [bulkLoop, hemp, hk, hr1]
      · simp [bulkLoop, hemp, hdnil]
      · simp [bulkLoop, hemp]; omega
    | false =>
      have hne : (records.drop skip).take batchSize ≠ [] := by
        intro h0; rw [h0] at hemp; simp at hemp
      have hdne : records.drop skip ≠ [] := by
        intro h0; apply hne; simp [h0]
      have hlt : skip < records.length := by
        by_contra hge
        exact hdne (List.drop_eq_nil_iff.mpr (by omega))
      have hpage : ∀ r ∈ (records.drop skip).take batchSize, (transform r).isSome :=
        fun r hr => hall r (List.mem_of_mem_drop (List.mem_of_mem_take hr))
      obtain ⟨hmap, hlenmap⟩ := mapTransform_spec _ hpage
      have harith : (records.length - (skip + batchSize) + (batchSize - 1)) / batchSize + 1 ≤ fuel := by
        simp only [batchSize] at hf ⊢; omega
      obtain ⟨ihthrew, ihskips, ihflat, ihtotal⟩ := ih (skip + batchSize) harith
      have hifpos : 0 < (((records.drop skip).take batchSize).filterMap transform).length := by
        rw [hlenmap]; exact List.length_pos.mpr hne
      have hsplit : (records.drop skip).take batchSize ++ records.drop (skip + batchSize) = records.drop skip := by
        have h0 := List.take_append_drop batchSize (records.drop skip)
        rwa [List.drop_drop] at h0
      have hk : (records.length - skip + (batchSize - 1)) / batchSize + 1 =
          ((records.length - (skip + batchSize) + (batchSize - 1)) / batchSize + 1) + 1 := by
        simp only [batchSize]; omega
      refine ⟨?_, ?_, ?_, ?_⟩
      · simp [bulkLoop, hemp, hmap, ihthrew]
      · simp only [bulkLoop, hemp, hmap]
        simp only [Bool.false_eq_true, if_false]
        rw [hk, List.range_succ_eq_map, List.map_cons, List.map_map]
        simp only [Nat.mul_zero, Nat.add_zero]
        congr 1
        rw [ihskips]
        apply List.map_congr_left
        intro a _
        simp only [Function.comp, batchSize]
        omega
      · simp only [bulkLoop, hemp, hmap]
        simp only [Bool.false_eq_true, if_false]
        rw [filter_searchDocTruthy]
        simp only [hifpos, if_pos]
        rw [List.flatten_append]
        simp only [List.flatten_cons, List.flatten_nil, List.append_nil]
        rw [ihflat, ← List.filterMap_append, hsplit]
      · simp only [bulkLoop, hemp, hmap]
        simp only [Bool.false_eq_true, if_false]
        rw [filter_searchDocTruthy]
        have hlentake : ((records.drop skip).take batchSize).length =
            min batchSize (records.drop skip).length := List.length_take _ _
        simp only [List.length_drop] at hlentake
        simp only [hlenmap, hlentake, ihtotal, batchSize] at *
        omega

/-- Applying id-keyed upserts of documents with pairwise distinct ids to an
index leaves exactly those documents, in order, after the initial segment. -/
theorem foldl_upsertDoc (l : List SearchDoc) :
    ∀ acc : List SearchDoc, ((acc ++ l).map SearchDoc.id).Nodup →
      l.foldl upsertDoc acc = acc ++ l := by
  induction l with
  | nil => intro acc _; simp
  | cons d rest ih =>
    intro acc hnd
    have hid : d.id ∉ acc.map SearchDoc.id := by
      have hdisj := (List.nodup_append.mp (by simpa [List.map_append] using hnd)).2.2
      intro hmem
      exact hdisj hmem (by simp)
    have hany : acc.any (fun e => e.id == d.id) = false := by
      rw [List.any_eq_false]
      intro e he heq
      exact hid (by simpa using ⟨e, he, (beq_iff_eq.mp heq)⟩)
    have hup : upsertDoc acc d = acc ++ [d] := by
      simp [upsertDoc, hany]
    rw [List.foldl_cons, hup, ih (acc ++ [d]) (by simpa [List.append_assoc] using hnd)]
    simp

/-- Bulk upserting documents with distinct ids into the empty index yields
exactly those documents. -/
theorem indexedDocs_eq (l : List SearchDoc) (h : (l.map SearchDoc.id).Nodup) :
    indexedDocs l = l := by
  simpa [indexedDocs] using foldl_upsertDoc l [] (by simpa using h)

/-- `v.toString()` succeeds on every value other than `null`/`undefined`. -/
theorem jsToString_some {v : JsVal} (h1 : v ≠ .vundef) (h2 : v ≠ .vnull) :
    jsToString v = some (jsToStr v) := by
  cases v <;> simp_all [jsToString]

/-- Element coercion of an array with no `null` element never throws. -/
theorem coerceElems_some {xs : List JsAtom} (h : JsAtom.anull ∉ xs) :
    (coerceElems xs).isSome := by
  induction xs with
  | nil => simp [coerceElems]
  | cons a rest ih =>
    have hrest := ih (fun hm => h (by simp [hm]))
    have ha : (jsCoerceElem a).isSome := by
      cases a <;> simp_all [jsCoerceElem, jsTypeofAtom, jsAtomToString, jsAtomToStr]
    obtain ⟨b, hb⟩ := Option.isSome_iff_exists.mp ha
    obtain ⟨ys, hys⟩ := Option.isSome_iff_exists.mp hrest
    simp [coerceElems, hb, hys]

/-- The `Array.isArray` guard never throws on a non-array, and on an array it
throws only when some element is `null`. -/
theorem jsCoerceArray_some {v : JsVal} (h : ∀ xs, v = .varr xs → JsAtom.anull ∉ xs) :
    (jsCoerceArray v).isSome := by
  cases hv : v <;> simp [jsCoerceArray]
  case varr xs => exact coerceElems_some (h xs hv)

/-- A well-formed one-field record used to instantiate universally
quantified theorems at a concrete input. -/
def recC1 : SourceRecord := { _id := .vobjId "w1" }

/-- **C1 (amended)** For a source collection of `N` records none of which
makes the transform throw, the bulk pass of `syncCollection` issues
`⌈N/B⌉ + 1` page reads with `B = 5000` — `⌈N/B⌉` pages returning records
plus the final read that returns zero records and terminates the loop — at
offsets `0, B, 2B, …`, and the batches sent to the index comprise exactly
the transformed records (the id-keyed upserts then leave exactly those
documents in the index when their ids are pairwise distinct). -/
theorem c1_theorem (records : List SourceRecord)
    (hall : ∀ r ∈ records, (transform r).isSome) :
    (syncBulk records).threw = false ∧
    (syncBulk records).pageSkips.length =
      (records.length + (batchSize - 1)) / batchSize + 1 ∧
    (syncBulk records).pageSkips =
      (List.range ((records.length + (batchSize - 1)) / batchSize + 1)).map
        (fun i => batchSize * i) ∧
    (syncBulk records).batches.flatten = records.filterMap transform ∧
    (((records.filterMap transform).map SearchDoc.id).Nodup →
      indexedDocs ((syncBulk records).batches.flatten) = records.filterMap transform) := by
  have hfuel : (records.length - 0 + (batchSize - 1)) / batchSize + 1 ≤
      records.length / batchSize + 2 := by
    simp only [batchSize]; omega
  obtain ⟨h1, h2, h3, h4⟩ :=
    bulkLoop_spec records hall (records.length / batchSize + 2) 0 hfuel
  simp only [Nat.sub_zero, List.drop_zero] at h1 h2 h3 h4
  have hsb : syncBulk records = bulkLoop records (records.length / batchSize + 2) 0 := rfl
  rw [hsb]
  refine ⟨h1, ?_, ?_, h3, ?_⟩
  · rw [h2]; simp
  · rw [h2]
    apply List.map_congr_left
    intro a _
    simp
  · intro hnd
    rw [h3]
    exact indexedDocs_eq _ hnd

/-- **C1 witness**: the amended statement instantiated at one concrete
record. -/
theorem c1_witness :
    (syncBulk [recC1]).threw = false ∧
    (syncBulk [recC1]).pageSkips.length =
      ([recC1].length + (batchSize - 1)) / batchSize + 1 ∧
    (syncBulk [recC1]).pageSkips =
      (List.range (([recC1].length + (batchSize - 1)) / batchSize + 1)).map
        (fun i => batchSize * i) ∧
    (syncBulk [recC1]).batches.flatten = [recC1].filterMap transform ∧
    indexedDocs ((syncBulk [recC1]).batches.flatten) = [recC1].filterMap transform := by
  have h := c1_theorem [recC1] (by decide)
  exact ⟨h.1, h.2.1, h.2.2.1, h.2.2.2.1, h.2.2.2.2 (by decide)⟩

/-- **C1 counterexample**: with `N = 1` record the code issues 2 page reads
(the page at offset 0 and the empty page at offset 5000), not
`⌈1/5000⌉ = 1` as the claim states. -/
theorem c1_counterexample :
    (syncBulk [recC1]).pageSkips.length ≠ ([recC1].length + (batchSize - 1)) / batchSize := by
  decide

/-- **C2 (amended)** For every source record whose `_id` is neither absent
nor null, and whose `Category`/`Region`, when arrays, contain no null
element, the transform never raises and defaults each missing field to
null, 0, or an empty array. -/
theorem c2_theorem (r : SourceRecord)
    (h1 : r._id ≠ .vundef) (h2 : r._id ≠ .vnull)
    (h3 : ∀ xs, r.Category = .varr xs → JsAtom.anull ∉ xs)
    (h4 : ∀ xs, r.Region = .varr xs → JsAtom.anull ∉ xs) :
    ∃ d, transform r = some d ∧
      (r.Code = .vundef → d.code = .vnull) ∧
      (r.Name = .vundef → d.name = .vnull) ∧
      (r.Price = .vundef → d.price = .vnum 0) ∧
      (r.Balance = .vundef → d.balance = .vnum 0) ∧
      (r.Measure = .vundef → d.measure = .vnull) ∧
      (r.User = .vundef → d.userId = .vnull) ∧
      (r.SpecOffer = .vundef → d.specOfferId = .vnull) ∧
      (r.PriceId = .vundef → d.priceId = .vnull) ∧
      (r.Category = .vundef → d.category = []) ∧
      (r.Region = .vundef → d.region = []) ∧
      (r.Date = .vundef → d.date = .vnull) := by
  have hid := jsToString_some h1 h2
  obtain ⟨cat, hcat⟩ := Option.isSome_iff_exists.mp (jsCoerceArray_some h3)
  obtain ⟨reg, hreg⟩ := Option.isSome_iff_exists.mp (jsCoerceArray_some h4)
  simp only [transform, hid, hcat, hreg]
  refine ⟨_, rfl, ?_, ?_, ?_, ?_, ?_, ?_, ?_, ?_, ?_, ?_, ?_⟩ <;> intro h
  all_goals try (rw [h] at hcat; simpa [jsCoerceArray] using hcat.symm)
  all_goals try (rw [h] at hreg; simpa [jsCoerceArray] using hreg.symm)
  all_goals simp [jsOr, jsTruthy, h]

/-- Concrete record with a valid `_id` and a one-element reference array,
for the C2 witness. -/
def recC2 : SourceRecord := { _id := .vobjId "w2", Category := .varr [.aobjId "c"] }

/-- **C2 witness**: the amended statement instantiated at a concrete
record. -/
theorem c2_witness : (transform recC2).isSome = true := by
  obtain ⟨d, hd, _⟩ :=
    c2_theorem recC2 (by decide) (by decide)
      (by intro xs hxs; cases hxs; decide)
      (fun xs hxs => nomatch hxs)
  simp [hd]

/-- **C2 counterexample**: the claim as stated is false — on a record with a
missing `_id` the transform throws (`doc._id.toString()` raises a
TypeError), and likewise on a `Category` array containing `null`
(`typeof null === 'object'`, so `null.toString()` is called). -/
theorem c2_counterexample :
    transform {} = none ∧
    transform { _id := .vobjId "a", Category := .varr [.anull] } = none := by
  decide

/-- Every value `new Date(v).getTime()` produces is of number type
(possibly `NaN`). -/
theorem jsNewDateGetTime_isNumeric (v : JsVal) : (jsNewDateGetTime v).isNumeric = true := by
  cases v <;> simp [jsNewDateGetTime, JsVal.isNumeric]
  case vstr s => cases s.toInt? <;> simp [JsVal.isNumeric]

/-- **C7 (amended)** On every record the transform does not throw on, the
output `date` is `null` when `Date` is absent **or falsy** (e.g. `0`, the
empty string, `null`), and is `new Date(Date).getTime()` — a value of
number type, though `NaN` (not meaningfully sortable) for values that do
not parse as dates — when `Date` is truthy. -/
theorem c7_theorem (r : SourceRecord) (d : SearchDoc) (h : transform r = some d) :
    d.date = (if jsTruthy r.Date then jsNewDateGetTime r.Date else JsVal.vnull) ∧
    (jsTruthy r.Date = true → (jsNewDateGetTime r.Date).isNumeric = true) ∧
    (r.Date = .vundef → d.date = .vnull) := by
  have hdate : d.date = (if jsTruthy r.Date then jsNewDateGetTime r.Date else JsVal.vnull) := by
    simp only [transform] at h
    split at h
    · exact absurd h (by simp)
    · split at h
      · exact absurd h (by simp)
      · split at h
        · exact absurd h (by simp)
        · obtain rfl := Option.some.inj h
          rfl
  refine ⟨hdate, fun _ => jsNewDateGetTime_isNumeric r.Date, fun h0 => ?_⟩
  rw [hdate, h0]
  rfl

/-- Concrete record with a present, truthy `Date`, for the C7 witness. -/
def recC7 : SourceRecord := { _id := .vobjId "a7", Date := .vdate 5 }

/-- The document the transform produces for `recC7`. -/
def docC7 : SearchDoc :=
  { id := "a7", code := .vnull, name := .vnull, price := .vnum 0, balance := .vnum 0
    measure := .vnull, userId := .vnull, specOfferId := .vnull, priceId := .vnull
    category := [], region := [], date := .vnum 5 }

/-- **C7 witness**: the amended statement instantiated at a concrete
record with a `Date` value. -/
theorem c7_witness :
    docC7.date = (if jsTruthy recC7.Date then jsNewDateGetTime recC7.Date else JsVal.vnull) ∧
    (jsTruthy recC7.Date = true → (jsNewDateGetTime recC7.Date).isNumeric = true) ∧
    (recC7.Date = .vundef → docC7.date = .vnull) :=
  c7_theorem recC7 docC7 (by decide)

/-- **C7 counterexample**: the claim as stated is false — for the record
with `Date: 0` the field is present (and even parses as the epoch), yet the
output `date` is `null`, not a sortable number, because `0` is falsy and
the code tests `doc.Date ? … : null`. -/
theorem c7_counterexample :
    (transform { _id := .vobjId "a", Date := .vnum 0 }).map SearchDoc.date = some JsVal.vnull ∧
    JsVal.vnull.isNumeric = false ∧
    JsVal.vnum 0 ≠ JsVal.vundef := by
  decide

/-- Concrete record for the C8 witness. -/
def recC8 : SourceRecord := { _id := .vobjId "x8", Name := .vstr "n" }

/-- **C8** The transform is deterministic: structurally identical records
yield structurally identical documents, with identical `id` fields.  (It is
pure by construction in this embedding: it is a function of the record
alone, performs no I/O and cannot mutate its argument.) -/
theorem c8_theorem (r₁ r₂ : SourceRecord) (h : r₁ = r₂) :
    transform r₁ = transform r₂ ∧
    (∀ d₁ d₂, transform r₁ = some d₁ → transform r₂ = some d₂ → d₁.id = d₂.id) := by
  subst h
  refine ⟨rfl, ?_⟩
  intro d₁ d₂ h₁ h₂
  rw [h₁] at h₂
  rw [Option.some.inj h₂]

/-- **C8 witness**: determinism instantiated at a concrete record. -/
theorem c8_witness :
    transform recC8 = transform recC8 ∧
    (∀ d₁ d₂, transform recC8 = some d₁ → transform recC8 = some d₂ → d₁.id = d₂.id) :=
  c8_theorem recC8 recC8 rfl

/-- Concrete record for the C9 witness. -/
def recC9 : SourceRecord := { _id := .vobjId "x9" }

/-- **C9** The configured transform never returns skip: whenever it does
not throw it returns a document object, which is truthy, so the
`.filter(Boolean)` step of the bulk loader drops nothing and the reported
running total equals the number of records read from the source. -/
theorem c9_theorem (records : List SourceRecord)
    (hall : ∀ r ∈ records, (transform r).isSome) :
    (∀ r d, transform r = some d → searchDocTruthy d = true) ∧
    (∀ l : List SearchDoc, l.filter searchDocTruthy = l) ∧
    (syncBulk records).total = records.length := by
  refine ⟨fun r d _ => rfl, filter_searchDocTruthy, ?_⟩
  have hfuel : (records.length - 0 + (batchSize - 1)) / batchSize + 1 ≤
      records.length / batchSize + 2 := by
    simp only [batchSize]; omega
  obtain ⟨_, _, _, h4⟩ :=
    bulkLoop_spec records hall (records.length / batchSize + 2) 0 hfuel
  simpa using h4

/-- **C9 witness**: instantiated at a concrete one-record collection. -/
theorem c9_witness : (syncBulk [recC9]).total = [recC9].length :=
  (c9_theorem [recC9] (by decide)).2.2

/-- Concrete base record for the C10 witness. -/
def recC10 : SourceRecord := { _id := .vobjId "xa", Name := .vstr "n" }

/-- **C10 (amended)** For every field other than `_id` — Code, Name, Price,
Balance, Measure, User, SpecOffer, PriceId, Category, Region, Date — a
present-but-falsy value is coerced exactly like an absent field (to null;
to 0 for Price and Balance; to an empty array for Category and Region), so
two records differing only in absent-versus-falsy for such a field
transform identically.  For `_id` this fails (see the counterexample). -/
theorem c10_theorem (r : SourceRecord) (v : JsVal) (hv : jsTruthy v = false) :
    transform { r with Code := v } = transform { r with Code := .vundef } ∧
    transform { r with Name := v } = transform { r with Name := .vundef } ∧
    transform { r with Price := v } = transform { r with Price := .vundef } ∧
    transform { r with Balance := v } = transform { r with Balance := .vundef } ∧
    transform { r with Measure := v } = transform { r with Measure := .vundef } ∧
    transform { r with User := v } = transform { r with User := .vundef } ∧
    transform { r with SpecOffer := v } = transform { r with SpecOffer := .vundef } ∧
    transform { r with PriceId := v } = transform { r with PriceId := .vundef } ∧
    transform { r with Category := v } = transform { r with Category := .vundef } ∧
    transform { r with Region := v } = transform { r with Region := .vundef } ∧
    transform { r with Date := v } = transform { r with Date := .vundef } := by
  have hArr : jsCoerceArray v = some [] := by
    cases v <;> simp_all [jsCoerceArray, jsTruthy]
  have hOr : ∀ b, jsOr v b = b := fun b => by simp [jsOr, hv]
  have hOrU : ∀ b, jsOr JsVal.vundef b = b := fun b => by simp [jsOr, jsTruthy]
  have hTU : jsTruthy JsVal.vundef = false := rfl
  have hArrU : jsCoerceArray JsVal.vundef = some [] := rfl
  refine ⟨?_, ?_, ?_, ?_, ?_, ?_, ?_, ?_, ?_, ?_, ?_⟩ <;>
    simp [transform, hOr, hOrU, hv, hTU, hArr, hArrU]

/-- **C10 witness**: absent `Code` and empty-string `Code` transform
identically on a concrete record. -/
theorem c10_witness :
    transform { recC10 with Code := JsVal.vstr "" } =
      transform { recC10 with Code := JsVal.vundef } :=
  (c10_theorem recC10 (JsVal.vstr "") (by decide)).1

/-- **C10 counterexample**: the claim as stated is false for `_id` — the
record with the present-but-falsy `_id: 0` transforms to a document (with
id `"0"`), while the record differing only by having `_id` absent makes the
transform throw; the two outputs are not identical documents. -/
theorem c10_counterexample :
    transform { _id := JsVal.vnum 0 } ≠ transform ({} : SourceRecord) ∧
    (transform { _id := JsVal.vnum 0 }).isSome = true ∧
    transform ({} : SourceRecord) = none ∧
    jsTruthy (JsVal.vnum 0) = false := by
  decide

/-- **C5** A failing per-event index write never halts the listener and
never escalates to a restart: the `'change'` handler schedules no restart,
does not halt, attempts each event's single write at most once (no retry),
logs when that write fails, and the listener still processes every event of
the stream. -/
theorem c5_theorem (w : IndexOp → Bool) (ev : ChangeEvent) :
    (handleChange w ev).scheduledRestartDelay = none ∧
    (handleChange w ev).listenerHalted = false ∧
    (handleChange w ev).ops.length ≤ 1 ∧
    (∀ op ∈ (handleChange w ev).ops, w op = false → (handleChange w ev).errorLogged = true) ∧
    (∀ evs : List ChangeEvent, (processEvents w evs).length = evs.length) := by
  refine ⟨?_, ?_, ?_, ?_, fun evs => by simp [processEvents]⟩ <;>
    (unfold handleChange; repeat' split) <;>
    simp_all [attemptWrite, emptyOutcome, caughtOutcome]

/-- Delete event used to instantiate the handler theorems. -/
def evC5 : ChangeEvent :=
  { operationType := .delete, documentKeyId := .vobjId "k5", fullDocument := none }

/-- **C5 witness**: with an always-failing index writer the concrete delete
event's failure is logged (and, per `c5_theorem`, dropped without halting
the listener). -/
theorem c5_witness : (handleChange (fun _ => false) evC5).errorLogged = true :=
  (c5_theorem (fun _ => false) evC5).2.2.2.1 (IndexOp.deleteDoc "k5") (by decide) rfl

/-- **C6** The dispatch case analysis of the `'change'` handler:
insert/replace with a full document present issue one `addDocuments` upsert
of the transformed document keyed by its id, update issues one
`updateDocuments` upsert likewise, non-delete events without `fullDocument`
issue no index mutation, and delete issues a delete-by-id with the
stringified `documentKey._id`, independent of the transform (the handler's
outcome for a delete does not depend on `fullDocument` at all). -/
theorem c6_theorem (w : IndexOp → Bool) (ev : ChangeEvent) (s : String)
    (hk : jsToString ev.documentKeyId = some s) :
    (∀ d t, (ev.operationType = .insert ∨ ev.operationType = .replace) →
      ev.fullDocument = some d → transform d = some t →
      (handleChange w ev).ops = [IndexOp.addDocs t] ∧
      (IndexOp.addDocs t).key = t.id ∧ (IndexOp.addDocs t).isUpsert = true) ∧
    (∀ d t, ev.operationType = .update → ev.fullDocument = some d → transform d = some t →
      (handleChange w ev).ops = [IndexOp.updateDocs t] ∧
      (IndexOp.updateDocs t).key = t.id ∧ (IndexOp.updateDocs t).isUpsert = true) ∧
    (ev.operationType ≠ .delete → ev.fullDocument = none → (handleChange w ev).ops = []) ∧
    (ev.operationType = .delete →
      (handleChange w ev).ops = [IndexOp.deleteDoc s] ∧
      (∀ fd, handleChange w { ev with fullDocument := fd } = handleChange w ev)) := by
  refine ⟨?_, ?_, ?_, ?_⟩
  · intro d t hop hfd ht
    rcases hop with h | h <;>
      simp [handleChange, hk, h, hfd, ht, attemptWrite, searchDocTruthy,
        IndexOp.key, IndexOp.isUpsert]
  · intro d t hop hfd ht
    simp [handleChange, hk, hop, hfd, ht, attemptWrite, searchDocTruthy,
      IndexOp.key, IndexOp.isUpsert]
  · intro hne hfd
    cases hop : ev.operationType <;>
      simp_all [handleChange, hk, attemptWrite, emptyOutcome]
  · intro hdel
    refine ⟨by simp [handleChange, hk, hdel, attemptWrite], fun fd => ?_⟩
    simp [handleChange, hk, hdel]

/-- Delete event used to instantiate the C6 dispatch theorem. -/
def evC6 : ChangeEvent :=
  { operationType := .delete, documentKeyId := .vobjId "k6", fullDocument := none }

/-- **C6 witness**: the delete dispatch instantiated at a concrete event. -/
theorem c6_witness : (handleChange (fun _ => true) evC6).ops = [IndexOp.deleteDoc "k6"] :=
  ((c6_theorem (fun _ => true) evC6 "k6" (by decide)).2.2.2 rfl).1

/-- **C3 (code bug)** The `'error'` handler of the change stream performs no
teardown: its actions contain no `closeStream`, so after one attach, one
stream error and the scheduled restart's re-attach, two listeners for the
same collection are active — the claimed at-most-one-listener invariant is
violated by the code. -/
theorem c3_theorem :
    ListenerAction.closeStream ∉ onStreamErrorActions ∧
    activeListeners [SupEvent.attachRun, SupEvent.errorFires, SupEvent.attachRun] = 2 ∧
    1 < activeListeners [SupEvent.attachRun, SupEvent.errorFires, SupEvent.attachRun] := by
  decide

/-- The first page read of the bulk loop is at the starting offset. -/
theorem bulkLoop_pageSkips_head (records : List SourceRecord) (fuel skip : Nat)
    (h : 0 < fuel) : ∃ t, (bulkLoop records fuel skip).pageSkips = skip :: t := by
  cases fuel with
  | zero => exact absurd h (lt_irrefl 0)
  | succ f =>
    simp only [bulkLoop]
    split
    · exact ⟨[], rfl⟩
    · split
      · exact ⟨[], rfl⟩
      · exact ⟨_, rfl⟩

/-- **C4** On a stream error the handler schedules, after exactly 10000 ms,
the full pipeline (`syncCollection`: settings update, the complete bulk
load's page reads and batch writes, then a brand-new listener attachment) —
not a mere reattachment of the listener. -/
theorem c4_theorem :
    ListenerAction.scheduleRestart 10000 RestartTask.fullPipeline ∈ onStreamErrorActions ∧
    (∀ d t, ListenerAction.scheduleRestart d t ∈ onStreamErrorActions →
      d = 10000 ∧ t = RestartTask.fullPipeline) ∧
    (∀ records, runRestartTask RestartTask.fullPipeline records = syncCollectionOps records) ∧
    (∀ records, PipelineOp.pageRead 0 batchSize ∈ syncCollectionOps records) ∧
    (∀ records, runRestartTask RestartTask.fullPipeline records ≠
      runRestartTask RestartTask.attachOnly records) ∧
    (∀ records, (syncBulk records).threw = false →
      ∃ l, syncCollectionOps records = l ++ [PipelineOp.attachListener]) := by
  refine ⟨by decide, ?_, fun _ => rfl, ?_, ?_, ?_⟩
  · intro d t h
    simp [onStreamErrorActions] at h
    exact ⟨h.1, h.2⟩
  · intro records
    obtain ⟨t, ht⟩ :=
      bulkLoop_pageSkips_head records (records.length / batchSize + 2) 0 (Nat.succ_pos _)
    simp [syncCollectionOps, syncBulk, ht]
  · intro records
    simp [runRestartTask, syncCollectionOps]
  · intro records h
    refine ⟨PipelineOp.updateSettings ::
      ((syncBulk records).pageSkips.map fun s => PipelineOp.pageRead s batchSize) ++
      ((syncBulk records).batches.map fun b => PipelineOp.addBatch b.length), ?_⟩
    simp [syncCollectionOps, h, List.append_assoc]

/-- **C4 witness**: the scheduled-restart characterization and the
bulk-then-attach shape, instantiated concretely. -/
theorem c4_witness :
    (10000 = 10000 ∧ RestartTask.fullPipeline = RestartTask.fullPipeline) ∧
    (∃ l, syncCollectionOps [] = l ++ [PipelineOp.attachListener]) :=
  ⟨c4_theorem.2.1 10000 RestartTask.fullPipeline (by decide),
   c4_theorem.2.2.2.2.2 [] (by decide)⟩
